import Mathlib

/-!
Verification of the vocabulary spaced-repetition scheduler of the
English_Learning_Project repository (src/utils/database.py).

The MongoDB `vocabulary` collection is modelled as a list of documents;
`datetime.now()` is passed in as an explicit `now : Nat` timestamp
(seconds), and `timedelta(days=k)` is `k * secondsPerDay`.  A nullable
or possibly-missing document field is an `Option`.  MongoDB's generated
`ObjectId` is modelled as a caller-supplied fresh `Nat`.  The Python
`try/except` wrappers that catch storage exceptions are modelled
separately (the `..._run` functions) on top of the pure bodies.
-/

namespace EnglishLearning

/-- Number of seconds in one day, so that `timedelta(days=k)` becomes
`days k` on integer timestamps. -/
def secondsPerDay : Nat := 86400

/-- Python `timedelta(days=k)` as a number of seconds. -/
def days (k : Nat) : Nat := k * secondsPerDay

/-- One document of the `vocabulary` collection, with the fields written by
`save_vocabulary_item` / `mark_word_reviewed`.  `add_count` and
`review_count` are `Option` because the code reads them with
`.get("add_count", 1)` / `.get("review_count", 0)`, tolerating documents
where the field is absent; `last_review` / `next_review` are nullable. -/
structure VocabDoc where
  _id : Nat
  user_id : Nat
  word : String
  definition : String
  examples : List String
  source_passage : String
  source_question : String
  created_at : Nat
  last_add_date : Nat
  add_count : Option Nat
  review_count : Option Nat
  last_review : Option Nat
  next_review : Option Nat
deriving Repr, DecidableEq

/-- MongoDB `update_one(filter-by-id, ...)`: apply `f` to the first document
whose `_id` matches, leaving every other document unchanged. -/
def update_first (db : List VocabDoc) (id : Nat) (f : VocabDoc → VocabDoc) :
    List VocabDoc :=
  match db with
  | [] => []
  | d :: rest => if d._id = id then f d :: rest else d :: update_first rest id f

/-- The `$set` document built on the dedup path of `save_vocabulary_item`:
always sets `add_count` and `last_add_date`; sets each content field only
when the supplied value is truthy (non-empty string / non-empty list). -/
def dedup_set (d : VocabDoc) (now add_count : Nat) (definition : String)
    (examples : List String) (source_passage source_question : String) :
    VocabDoc :=
  { d with
    add_count := some add_count
    last_add_date := now
    definition := if definition ≠ "" then definition else d.definition
    examples := if examples ≠ [] then examples else d.examples
    source_passage := if source_passage ≠ "" then source_passage else d.source_passage
    source_question := if source_question ≠ "" then source_question else d.source_question }

/-- Body of `Database.save_vocabulary_item` (database.py lines 188-247),
without the surrounding `try/except`.  Returns the value the Python
function returns (the post-write document found again by `_id`) together
with the new state of the `vocabulary` collection.  `freshId` is the
`_id` MongoDB would generate on insert. -/
def save_vocabulary_item (db : List VocabDoc) (user_id : Nat)
    (word definition : String) (examples : List String)
    (source_passage source_question : String) (now freshId : Nat) :
    Option VocabDoc × List VocabDoc :=
  match db.find? (fun d => d.user_id == user_id && d.word == word) with
  | some existing_item =>
      let add_count := existing_item.add_count.getD 1 + 1
      let db2 := update_first db existing_item._id
        (fun d => dedup_set d now add_count definition examples
          source_passage source_question)
      (db2.find? (fun d => d._id == existing_item._id), db2)
  | none =>
      let vocab_item : VocabDoc :=
        { _id := freshId
          user_id := user_id
          word := word
          definition := definition
          examples := examples
          source_passage := source_passage
          source_question := source_question
          created_at := now
          last_add_date := now
          add_count := some 1
          review_count := some 0
          last_review := none
          next_review := none }
      let db2 := db ++ [vocab_item]
      (db2.find? (fun d => d._id == freshId), db2)

/-- The spaced-repetition interval chain of `mark_word_reviewed`
(database.py lines 279-288): interval added to `now` as a function of the
post-increment review count. -/
def next_review_delta (current_review_count : Nat) : Nat :=
  if current_review_count = 1 then days 1
  else if current_review_count = 2 then days 3
  else if current_review_count = 3 then days 7
  else if current_review_count = 4 then days 14
  else days 30

/-- Body of `Database.mark_word_reviewed` (database.py lines 253-303),
without the surrounding `try/except`.  Looks the document up by
`(_id, user_id)`; on a miss returns `none` (the Python `return None`,
which the spec calls `NotFoundError`) and leaves the collection
untouched; on a hit increments the review count, stamps `last_review`,
schedules `next_review`, and returns the re-fetched document. -/
def mark_word_reviewed (db : List VocabDoc) (user_id word_id now : Nat) :
    Option VocabDoc × List VocabDoc :=
  match db.find? (fun d => d._id == word_id && d.user_id == user_id) with
  | none => (none, db)
  | some vocab_item =>
      let current_review_count := vocab_item.review_count.getD 0 + 1
      let next_review := now + next_review_delta current_review_count
      let db2 := update_first db word_id (fun d =>
        { d with
          review_count := some current_review_count
          last_review := some now
          next_review := some next_review })
      (db2.find? (fun d => d._id == word_id), db2)

/-- The filter of `get_words_due_for_review` (database.py lines 321-327):
`user_id` matches and (`next_review ≤ now` or `next_review` is null). -/
def due_filter (user_id now : Nat) (d : VocabDoc) : Bool :=
  d.user_id == user_id &&
    ((match d.next_review with
      | some t => decide (t ≤ now)
      | none => false) || d.next_review == none)

/-- Body of `Database.get_words_due_for_review` (database.py lines
309-329), without the surrounding `try/except`. -/
def get_words_due_for_review (db : List VocabDoc) (user_id now : Nat) :
    List VocabDoc :=
  db.filter (due_filter user_id now)

/-- The sort order of `get_user_vocabulary`: `add_count` descending, then
`word` ascending (MongoDB sorts a missing numeric field lowest, modelled
by `Option.getD 0`). -/
def vocabLE (d1 d2 : VocabDoc) : Prop :=
  d2.add_count.getD 0 < d1.add_count.getD 0 ∨
    (d1.add_count.getD 0 = d2.add_count.getD 0 ∧ d1.word ≤ d2.word)

instance : DecidableRel vocabLE := fun d1 d2 => by
  unfold vocabLE; infer_instance

instance : IsTotal VocabDoc vocabLE where
  total d1 d2 := by
    unfold vocabLE
    rcases Nat.lt_trichotomy (d1.add_count.getD 0) (d2.add_count.getD 0) with h | h | h
    · exact Or.inr (Or.inl h)
    · rcases le_total d1.word d2.word with hw | hw
      · exact Or.inl (Or.inr ⟨h, hw⟩)
      · exact Or.inr (Or.inr ⟨h.symm, hw⟩)
    · exact Or.inl (Or.inl h)

instance : IsTrans VocabDoc vocabLE where
  trans d1 d2 d3 h12 h23 := by
    unfold vocabLE at *
    rcases h12 with h12 | ⟨e12, w12⟩
    · rcases h23 with h23 | ⟨e23, w23⟩
      · exact Or.inl (h23.trans h12)
      · exact Or.inl (e23 ▸ h12)
    · rcases h23 with h23 | ⟨e23, w23⟩
      · exact Or.inl (e12 ▸ h23)
      · exact Or.inr ⟨e12.trans e23, w12.trans w23⟩

/-- Body of `Database.get_user_vocabulary` (database.py lines 335-353),
without the surrounding `try/except`: the user's documents sorted by
`add_count` descending then `word` ascending. -/
def get_user_vocabulary (db : List VocabDoc) (user_id : Nat) :
    List VocabDoc :=
  List.insertionSort vocabLE (db.filter (fun d => d.user_id == user_id))

/-- The Python `try/except` wrapper of `save_vocabulary_item` (database.py
lines 249-251): a storage exception — modelled as `some msg`, raised by
the first storage call, before any write — is caught and turned into a
plain `None` return; `Except.error` would be an exception reaching the
caller, which never happens. -/
def save_vocabulary_item_run (storage_error : Option String)
    (db : List VocabDoc) (user_id : Nat) (word definition : String)
    (examples : List String) (source_passage source_question : String)
    (now freshId : Nat) : Except String (Option VocabDoc × List VocabDoc) :=
  match storage_error with
  | some _ => Except.ok (none, db)
  | none => Except.ok (save_vocabulary_item db user_id word definition
      examples source_passage source_question now freshId)

/-- The Python `try/except` wrapper of `mark_word_reviewed` (database.py
lines 305-307): a storage exception is caught and turned into `None`. -/
def mark_word_reviewed_run (storage_error : Option String)
    (db : List VocabDoc) (user_id word_id now : Nat) :
    Except String (Option VocabDoc × List VocabDoc) :=
  match storage_error with
  | some _ => Except.ok (none, db)
  | none => Except.ok (mark_word_reviewed db user_id word_id now)

/-- The Python `try/except` wrapper of `get_words_due_for_review`
(database.py lines 331-333): a storage exception is caught and turned
into an empty list. -/
def get_words_due_for_review_run (storage_error : Option String)
    (db : List VocabDoc) (user_id now : Nat) :
    Except String (List VocabDoc) :=
  match storage_error with
  | some _ => Except.ok []
  | none => Except.ok (get_words_due_for_review db user_id now)

/-- The Python `try/except` wrapper of `get_user_vocabulary` (database.py
lines 355-357): a storage exception is caught and turned into an empty
list. -/
def get_user_vocabulary_run (storage_error : Option String)
    (db : List VocabDoc) (user_id : Nat) :
    Except String (List VocabDoc) :=
  match storage_error with
  | some _ => Except.ok []
  | none => Except.ok (get_user_vocabulary db user_id)

/-- The uniqueness invariant of the `vocabulary` collection: no two stored
documents share the same (owner, word) pair. -/
def UniqueOwnerWord (db : List VocabDoc) : Prop :=
  db.Pairwise fun d1 d2 => ¬ (d1.user_id = d2.user_id ∧ d1.word = d2.word)

/-- A concrete document used by several witnesses. -/
def appleDoc : VocabDoc :=
  { _id := 1
    user_id := 7
    word := "apple"
    definition := "a fruit"
    examples := ["an apple a day"]
    source_passage := ""
    source_question := ""
    created_at := 0
    last_add_date := 0
    add_count := some 3
    review_count := some 0
    last_review := none
    next_review := none }

/-- A second concrete document: same owner and `add_count` as `appleDoc`,
later word. -/
def bananaDoc : VocabDoc :=
  { appleDoc with _id := 2, word := "banana" }

/-- A third concrete document: same owner, smaller `add_count`. -/
def cherryDoc : VocabDoc :=
  { appleDoc with _id := 3, word := "cherry", add_count := some 1 }

/-- A concrete legacy document missing both the `add_count` and the
`review_count` field. -/
def legacyDoc : VocabDoc :=
  { appleDoc with _id := 4, word := "dog", add_count := none,
                  review_count := none }

/-! ## Helper lemmas about `update_first` -/

/-- If the `_id`s of `db` are distinct, `f` keeps the `_id` of `d`, and `d`
is a document of `db`, then after `update_first db d._id f` the lookup by
`d._id` finds exactly `f d`. -/
theorem find_update_first (db : List VocabDoc) (d : VocabDoc)
    (f : VocabDoc → VocabDoc) (hf : (f d)._id = d._id) (hmem : d ∈ db)
    (hids : (db.map VocabDoc._id).Nodup) :
    (update_first db d._id f).find? (fun x => x._id == d._id) = some (f d) := by
  induction db with
  | nil => cases hmem
  | cons a rest ih =>
    rw [List.map_cons, List.nodup_cons] at hids
    obtain ⟨hnotin, hrest⟩ := hids
    rcases List.mem_cons.mp hmem with h | h
    · subst h
      rw [update_first, if_pos rfl]
      exact List.find?_cons_of_pos _ (by simp [hf])
    · have hne : a._id ≠ d._id := by
        intro he
        exact hnotin (he ▸ List.mem_map_of_mem VocabDoc._id h)
      rw [update_first, if_neg hne, List.find?_cons_of_neg _ (by simp [hne])]
      exact ih h hrest

/-- `update_first` touches each document either not at all or through `f`. -/
theorem forall₂_update_first (db : List VocabDoc) (id : Nat)
    (f : VocabDoc → VocabDoc) :
    List.Forall₂ (fun d d2 => d2 = d ∨ d2 = f d) db (update_first db id f) := by
  induction db with
  | nil => exact List.Forall₂.nil
  | cons a rest ih =>
    rw [update_first]
    by_cases h : a._id = id
    · rw [if_pos h]
      exact List.Forall₂.cons (Or.inr rfl)
        (List.forall₂_same.mpr fun d _ => Or.inl rfl)
    · exact if_neg h ▸ List.Forall₂.cons (Or.inl rfl) ih

/-- Shared helper: on the found path, `mark_word_reviewed` returns the
stored document with `review_count.getD 0 + 1`, `last_review := now`, and
`next_review := now` plus the step-table interval. -/
theorem mark_word_reviewed_found (db : List VocabDoc)
    (user_id word_id now : Nat) (d : VocabDoc)
    (hids : (db.map VocabDoc._id).Nodup)
    (hfind : db.find? (fun x => x._id == word_id && x.user_id == user_id) =
      some d) :
    (mark_word_reviewed db user_id word_id now).1 =
      some { d with
        review_count := some (d.review_count.getD 0 + 1)
        last_review := some now
        next_review :=
          some (now + next_review_delta (d.review_count.getD 0 + 1)) } := by
  have hp := List.find?_some hfind
  simp only [Bool.and_eq_true, beq_iff_eq] at hp
  have hmem := List.mem_of_find?_eq_some hfind
  rw [mark_word_reviewed, hfind, ← hp.1]
  exact find_update_first db d _ rfl hmem hids

/-- Shared helper: on the dedup path, `save_vocabulary_item` returns the
stored document with `add_count.getD 1 + 1`, `last_add_date := now`, and
each content field overwritten exactly when the supplied value is
truthy. -/
theorem save_vocabulary_item_found (db : List VocabDoc) (user_id : Nat)
    (word definition : String) (examples : List String)
    (source_passage source_question : String) (now freshId : Nat)
    (existing : VocabDoc)
    (hids : (db.map VocabDoc._id).Nodup)
    (hfind : db.find? (fun d => d.user_id == user_id && d.word == word) =
      some existing) :
    (save_vocabulary_item db user_id word definition examples
        source_passage source_question now freshId).1 =
      some (dedup_set existing now (existing.add_count.getD 1 + 1)
        definition examples source_passage source_question) := by
  have hmem := List.mem_of_find?_eq_some hfind
  rw [save_vocabulary_item, hfind]
  exact find_update_first db existing _ rfl hmem hids

/-! ## Claim C1: the review step table -/

/-- Claim C1: when a document owned by `user_id` with pre-call review count
`n` is marked reviewed, the returned document has `review_count = n + 1`,
`last_review = now`, and `next_review = now` plus the fixed interval for
`n + 1`: 1 day for 1, 3 days for 2, 7 days for 3, 14 days for 4, and 30
days for every count of 5 or more. -/
theorem mark_word_reviewed_step_table (db : List VocabDoc)
    (user_id word_id now n : Nat) (d : VocabDoc)
    (hids : (db.map VocabDoc._id).Nodup)
    (hfind : db.find? (fun x => x._id == word_id && x.user_id == user_id) =
      some d)
    (hn : d.review_count.getD 0 = n) :
    (mark_word_reviewed db user_id word_id now).1 =
      some { d with
        review_count := some (n + 1)
        last_review := some now
        next_review := some (now + next_review_delta (n + 1)) } ∧
    next_review_delta 1 = days 1 ∧ next_review_delta 2 = days 3 ∧
    next_review_delta 3 = days 7 ∧ next_review_delta 4 = days 14 ∧
    ∀ k, 5 ≤ k → next_review_delta k = days 30 := by
  refine ⟨?_, rfl, rfl, rfl, rfl, ?_⟩
  · rw [mark_word_reviewed_found db user_id word_id now d hids hfind, hn]
  · intro k hk
    rw [next_review_delta, if_neg (by omega), if_neg (by omega),
      if_neg (by omega), if_neg (by omega)]

/-- Witness for C1 at a concrete database: one document with review count 0,
marked reviewed at time 1000. -/
theorem mark_word_reviewed_step_table_witness :
    (mark_word_reviewed [appleDoc] 7 1 1000).1 =
      some { appleDoc with
        review_count := some 1
        last_review := some 1000
        next_review := some (1000 + next_review_delta 1) } ∧
    next_review_delta 1 = days 1 ∧ next_review_delta 2 = days 3 ∧
    next_review_delta 3 = days 7 ∧ next_review_delta 4 = days 14 ∧
    ∀ k, 5 ≤ k → next_review_delta k = days 30 :=
  mark_word_reviewed_step_table [appleDoc] 7 1 1000 0 appleDoc (by decide)
    (by decide) (by decide)

/-! ## Claim C2: the due set -/

/-- Claim C2: a document is returned by `get_words_due_for_review` exactly
when it is a stored document of the given user whose `next_review` is null
or at most `now`; in particular a never-reviewed document (null
`next_review`) is always due, and a strictly future `next_review` excludes
the document. -/
theorem get_words_due_iff (db : List VocabDoc) (user_id now : Nat)
    (d : VocabDoc) :
    d ∈ get_words_due_for_review db user_id now ↔
      d ∈ db ∧ d.user_id = user_id ∧
        (d.next_review = none ∨ ∃ t, d.next_review = some t ∧ t ≤ now) := by
  rw [get_words_due_for_review, List.mem_filter]
  constructor
  · rintro ⟨hmem, hdue⟩
    rw [due_filter, Bool.and_eq_true, beq_iff_eq] at hdue
    obtain ⟨hu, hrest⟩ := hdue
    refine ⟨hmem, hu, ?_⟩
    rcases ht : d.next_review with _ | t
    · exact Or.inl rfl
    · rw [ht, Bool.or_eq_true] at hrest
      rcases hrest with h | h
      · exact Or.inr ⟨t, rfl, of_decide_eq_true h⟩
      · simp at h
  · rintro ⟨hmem, hu, hdue⟩
    refine ⟨hmem, ?_⟩
    rw [due_filter, Bool.and_eq_true, beq_iff_eq]
    refine ⟨hu, ?_⟩
    rcases hdue with h | ⟨t, ht, hle⟩
    · rw [h]
      simp
    · rw [ht, Bool.or_eq_true]
      exact Or.inl (decide_eq_true hle)

/-! ## Claim C3: not-found review leaves the store untouched -/

/-- Claim C3: when no stored document has the requested `_id` together with
the requesting `user_id` (nonexistent id, or id owned by another user),
`mark_word_reviewed` returns `none` — the Python `return None`, surfaced
by the spec as `NotFoundError` — and the collection is returned
completely unchanged. -/
theorem mark_word_reviewed_not_found (db : List VocabDoc)
    (user_id word_id now : Nat)
    (h : db.find? (fun d => d._id == word_id && d.user_id == user_id) =
      none) :
    mark_word_reviewed db user_id word_id now = (none, db) := by
  rw [mark_word_reviewed, h]

/-- Witness for C3: the document with id 1 belongs to user 7, so user 8
cannot mark it; the store is untouched. -/
theorem mark_word_reviewed_not_found_witness :
    mark_word_reviewed [appleDoc] 8 1 1000 = (none, [appleDoc]) :=
  mark_word_reviewed_not_found [appleDoc] 8 1 1000 (by decide)

/-! ## Claim C4: storage-failure behaviour

The spec claims storage failures are propagated unchanged.  The code wraps
every operation in `try/except Exception: print(...); return None` (or
`return []`), so a storage failure is caught and converted — never
propagated. -/

/-- Counterexample to C4 as stated: with the backing store unavailable,
`save_vocabulary_item` does not propagate the storage failure to the
caller — the `except` clause catches it. -/
theorem storage_failure_not_propagated :
    save_vocabulary_item_run (some "storage unavailable") [] 7 "apple"
        "a fruit" [] "" "" 0 1 ≠
      Except.error "storage unavailable" := by
  rw [save_vocabulary_item_run]
  intro h
  cases h

/-- Claim C4 amended: when the backing store fails, every operation of the
core catches the failure instead of propagating it, converting it into a
`none` result (for `save_vocabulary_item` and `mark_word_reviewed`) or an
empty list (for the two queries), with no mutation. -/
theorem storage_failures_swallowed (e : String) (db : List VocabDoc)
    (user_id : Nat) (word definition : String) (examples : List String)
    (source_passage source_question : String) (now freshId word_id : Nat) :
    save_vocabulary_item_run (some e) db user_id word definition examples
        source_passage source_question now freshId = Except.ok (none, db) ∧
    mark_word_reviewed_run (some e) db user_id word_id now =
        Except.ok (none, db) ∧
    get_words_due_for_review_run (some e) db user_id now = Except.ok [] ∧
    get_user_vocabulary_run (some e) db user_id = Except.ok [] :=
  ⟨rfl, rfl, rfl, rfl⟩

/-! ## Claim C5: the dedup path of `save_vocabulary_item` -/

/-- Claim C5: resubmitting an existing (owner, word) pair increments
`add_count` by exactly 1, sets `last_add_date := now`, and overwrites each
of `definition`, `examples`, `source_passage`, `source_question` if and
only if the newly supplied value is non-empty, preserving the stored value
otherwise. -/
theorem save_vocabulary_item_dedup (db : List VocabDoc) (user_id : Nat)
    (word definition : String) (examples : List String)
    (source_passage source_question : String) (now freshId n : Nat)
    (existing : VocabDoc)
    (hids : (db.map VocabDoc._id).Nodup)
    (hfind : db.find? (fun d => d.user_id == user_id && d.word == word) =
      some existing)
    (hn : existing.add_count = some n) :
    (save_vocabulary_item db user_id word definition examples
        source_passage source_question now freshId).1 =
      some { existing with
        add_count := some (n + 1)
        last_add_date := now
        definition := if definition ≠ "" then definition
          else existing.definition
        examples := if examples ≠ [] then examples else existing.examples
        source_passage := if source_passage ≠ "" then source_passage
          else existing.source_passage
        source_question := if source_question ≠ "" then source_question
          else existing.source_question } := by
  rw [save_vocabulary_item_found db user_id word definition examples
    source_passage source_question now freshId existing hids hfind, hn]
  rfl

/-- Witness for C5: resubmitting "apple" for user 7 with an empty
definition (preserved), fresh examples (overwritten), empty source passage
(preserved) and a fresh source question (overwritten); `add_count` goes
from 3 to 4. -/
theorem save_vocabulary_item_dedup_witness :
    (save_vocabulary_item [appleDoc] 7 "apple" "" ["a fresh example"] ""
        "question three" 500 99).1 =
      some { appleDoc with
        add_count := some 4
        last_add_date := 500
        examples := ["a fresh example"]
        source_question := "question three" } := by
  have h := save_vocabulary_item_dedup [appleDoc] 7 "apple" ""
    ["a fresh example"] "" "question three" 500 99 3 appleDoc
    (by decide) (by decide) rfl
  exact h.trans (by decide)

/-! ## Claim C6: the create path of `save_vocabulary_item` -/

/-- Claim C6: submitting a fresh (owner, word) pair appends exactly one new
document with `add_count = 1`, `review_count = 0`, null `last_review` and
`next_review`, `created_at = last_add_date = now`, and the supplied
content fields stored as given, and returns that post-write document. -/
theorem save_vocabulary_item_create (db : List VocabDoc) (user_id : Nat)
    (word definition : String) (examples : List String)
    (source_passage source_question : String) (now freshId : Nat)
    (hfind : db.find? (fun d => d.user_id == user_id && d.word == word) =
      none)
    (hfresh : ∀ d ∈ db, d._id ≠ freshId) :
    (save_vocabulary_item db user_id word definition examples
        source_passage source_question now freshId).1 =
      some { _id := freshId, user_id := user_id, word := word,
             definition := definition, examples := examples,
             source_passage := source_passage,
             source_question := source_question, created_at := now,
             last_add_date := now, add_count := some 1,
             review_count := some 0, last_review := none,
             next_review := none } ∧
    (save_vocabulary_item db user_id word definition examples
        source_passage source_question now freshId).2 =
      db ++ [{ _id := freshId, user_id := user_id, word := word,
               definition := definition, examples := examples,
               source_passage := source_passage,
               source_question := source_question, created_at := now,
               last_add_date := now, add_count := some 1,
               review_count := some 0, last_review := none,
               next_review := none }] := by
  have hnone : db.find? (fun d => d._id == freshId) = none :=
    List.find?_eq_none.mpr fun d hd => by simp [hfresh d hd]
  constructor
  · rw [save_vocabulary_item, hfind]
    show (db ++ [_]).find? (fun d : VocabDoc => d._id == freshId) = _
    rw [List.find?_append, hnone, Option.none_or]
    exact List.find?_cons_of_pos _ (by simp)
  · rw [save_vocabulary_item, hfind]

/-- Witness for C6: adding "banana" for user 7 next to the stored "apple"
document creates and returns one new document with the creation-time
field values. -/
theorem save_vocabulary_item_create_witness :
    (save_vocabulary_item [appleDoc] 7 "banana" "another fruit"
        ["a banana split"] "passage one" "" 600 2).1 =
      some { _id := 2, user_id := 7, word := "banana",
             definition := "another fruit", examples := ["a banana split"],
             source_passage := "passage one", source_question := "",
             created_at := 600, last_add_date := 600, add_count := some 1,
             review_count := some 0, last_review := none,
             next_review := none } ∧
    (save_vocabulary_item [appleDoc] 7 "banana" "another fruit"
        ["a banana split"] "passage one" "" 600 2).2 =
      [appleDoc] ++ [{ _id := 2, user_id := 7, word := "banana",
                       definition := "another fruit",
                       examples := ["a banana split"],
                       source_passage := "passage one",
                       source_question := "", created_at := 600,
                       last_add_date := 600, add_count := some 1,
                       review_count := some 0, last_review := none,
                       next_review := none }] :=
  save_vocabulary_item_create [appleDoc] 7 "banana" "another fruit"
    ["a banana split"] "passage one" "" 600 2 (by decide) (by decide)

/-! ## Claim C7: `save_vocabulary_item` never touches review state -/

/-- `update_first` preserves the length of the collection. -/
theorem length_update_first (db : List VocabDoc) (id : Nat)
    (f : VocabDoc → VocabDoc) :
    (update_first db id f).length = db.length := by
  induction db with
  | nil => rfl
  | cons a rest ih =>
    rw [update_first]
    by_cases h : a._id = id
    · rw [if_pos h, List.length_cons, List.length_cons]
    · rw [if_neg h, List.length_cons, List.length_cons, ih]

/-- Claim C7: whichever path `save_vocabulary_item` takes, every document
already in the collection keeps its identity, its `review_count`, its
`next_review`, its `last_review` and its `created_at`; review state is
mutated only by `mark_word_reviewed`. -/
theorem save_vocabulary_item_preserves_review_state (db : List VocabDoc)
    (user_id : Nat) (word definition : String) (examples : List String)
    (source_passage source_question : String) (now freshId : Nat) :
    List.Forall₂
      (fun d d2 => d2._id = d._id ∧ d2.user_id = d.user_id ∧
        d2.word = d.word ∧ d2.review_count = d.review_count ∧
        d2.next_review = d.next_review ∧ d2.last_review = d.last_review ∧
        d2.created_at = d.created_at)
      db
      ((save_vocabulary_item db user_id word definition examples
        source_passage source_question now freshId).2.take db.length) := by
  rcases hfind : db.find? (fun d => d.user_id == user_id && d.word == word)
    with _ | existing
  · simp only [save_vocabulary_item, hfind]
    rw [List.take_left]
    exact List.forall₂_same.mpr fun d _ => ⟨rfl, rfl, rfl, rfl, rfl, rfl, rfl⟩
  · simp only [save_vocabulary_item, hfind]
    rw [← length_update_first db existing._id
      (fun d => dedup_set d now (existing.add_count.getD 1 + 1) definition
        examples source_passage source_question), List.take_length]
    refine (forall₂_update_first db existing._id _).imp ?_
    rintro d d2 (rfl | rfl)
    · exact ⟨rfl, rfl, rfl, rfl, rfl, rfl, rfl⟩
    · exact ⟨rfl, rfl, rfl, rfl, rfl, rfl, rfl⟩

/-! ## Claim C8: at most one document per (owner, word) pair -/

/-- Membership on the right of a `Forall₂` comes from a related member on
the left. -/
theorem exists_of_forall₂_mem {S : VocabDoc → VocabDoc → Prop} :
    ∀ {l l2 : List VocabDoc}, List.Forall₂ S l l2 →
      ∀ b ∈ l2, ∃ a ∈ l, S a b := by
  intro l l2 h
  induction h with
  | nil => intro b hb; cases hb
  | cons hS hrest ih =>
    intro b hb
    rcases List.mem_cons.mp hb with rfl | hb
    · exact ⟨_, List.mem_cons_self _ _, hS⟩
    · obtain ⟨a, ha, hSa⟩ := ih b hb
      exact ⟨a, List.mem_cons_of_mem _ ha, hSa⟩

/-- Pairwise properties transfer along a `Forall₂` whose relation is
compatible with the pairwise relation. -/
theorem pairwise_of_forall₂ {S R : VocabDoc → VocabDoc → Prop}
    (hcompat : ∀ a a2 b b2, S a a2 → S b b2 → R a b → R a2 b2) :
    ∀ {l l2 : List VocabDoc}, List.Forall₂ S l l2 →
      l.Pairwise R → l2.Pairwise R := by
  intro l l2 hf
  induction hf with
  | nil => intro _; exact List.Pairwise.nil
  | cons hS hrest ih =>
    intro hp
    cases hp with
    | cons hhead htail =>
      refine List.Pairwise.cons ?_ (ih htail)
      intro b2 hb2
      obtain ⟨b, hb, hSb⟩ := exists_of_forall₂_mem hrest b2 hb2
      exact hcompat _ _ _ _ hS hSb (hhead b hb)

/-- Claim C8: if no two stored documents share an (owner, word) pair, the
same holds after any `save_vocabulary_item` call (which upserts into the
found document and inserts only when none exists) and after any
`mark_word_reviewed` call; no unique-constraint violation can arise. -/
theorem unique_owner_word_invariant (db : List VocabDoc) (user_id : Nat)
    (word definition : String) (examples : List String)
    (source_passage source_question : String)
    (now freshId word_id now2 : Nat)
    (h : UniqueOwnerWord db) :
    UniqueOwnerWord (save_vocabulary_item db user_id word definition
      examples source_passage source_question now freshId).2 ∧
    UniqueOwnerWord (mark_word_reviewed db user_id word_id now2).2 := by
  constructor
  · rcases hfind : db.find? (fun d => d.user_id == user_id && d.word == word)
      with _ | existing
    · simp only [save_vocabulary_item, hfind]
      rw [UniqueOwnerWord, List.pairwise_append]
      refine ⟨h, List.pairwise_singleton _ _, ?_⟩
      intro d hd v hv
      rw [List.mem_singleton] at hv
      subst hv
      have hmiss := List.find?_eq_none.mp hfind d hd
      simp only [Bool.and_eq_true, beq_iff_eq, not_and] at hmiss
      rintro ⟨hu, hw⟩
      exact hmiss hu hw
    · simp only [save_vocabulary_item, hfind]
      exact pairwise_of_forall₂
        (fun a a2 b b2 ha hb hR => by
          rcases ha with rfl | rfl <;> rcases hb with rfl | rfl <;> exact hR)
        (forall₂_update_first db existing._id _) h
  · rcases hfind : db.find?
        (fun d => d._id == word_id && d.user_id == user_id)
      with _ | item
    · simp only [mark_word_reviewed, hfind]
      exact h
    · simp only [mark_word_reviewed, hfind]
      exact pairwise_of_forall₂
        (fun a a2 b b2 ha hb hR => by
          rcases ha with rfl | rfl <;> rcases hb with rfl | rfl <;> exact hR)
        (forall₂_update_first db word_id _) h

/-- Witness for C8: starting from the singleton collection holding
`appleDoc` — trivially unique — both a dedup save and a review keep the
invariant. -/
theorem unique_owner_word_invariant_witness :
    UniqueOwnerWord (save_vocabulary_item [appleDoc] 7 "apple" "" [] "" ""
      500 99).2 ∧
    UniqueOwnerWord (mark_word_reviewed [appleDoc] 7 1 1000).2 :=
  unique_owner_word_invariant [appleDoc] 7 "apple" "" [] "" "" 500 99 1
    1000 (List.pairwise_singleton _ _)

/-! ## Claim C9: ordering of `get_user_vocabulary` -/

/-- Claim C9: `get_user_vocabulary` returns exactly the given user's
documents (as a permutation of the owner filter), sorted by `add_count`
descending then `word` ascending; concretely, (apple, 3), (banana, 3),
(cherry, 1) come back in the order [apple, banana, cherry]. -/
theorem get_user_vocabulary_ordered (db : List VocabDoc) (user_id : Nat) :
    List.Perm (get_user_vocabulary db user_id)
        (db.filter (fun d => d.user_id == user_id)) ∧
    List.Sorted vocabLE (get_user_vocabulary db user_id) ∧
    get_user_vocabulary [cherryDoc, bananaDoc, appleDoc] 7 =
      [appleDoc, bananaDoc, cherryDoc] := by
  refine ⟨List.perm_insertionSort _ _, List.sorted_insertionSort _ _, ?_⟩
  have hword : ¬ ("banana" : String) ≤ "apple" := by
    rw [String.le_iff_toList_le]
    decide
  have h1 : ¬ vocabLE bananaDoc appleDoc := by
    rw [vocabLE]
    rintro (h | ⟨-, h⟩)
    · exact absurd h (by decide)
    · exact hword h
  have h3 : ¬ vocabLE cherryDoc appleDoc := by
    rw [vocabLE]
    rintro (h | ⟨h, -⟩)
    · exact absurd h (by decide)
    · exact absurd h (by decide)
  have h4 : ¬ vocabLE cherryDoc bananaDoc := by
    rw [vocabLE]
    rintro (h | ⟨h, -⟩)
    · exact absurd h (by decide)
    · exact absurd h (by decide)
  rw [get_user_vocabulary]
  show List.insertionSort vocabLE [cherryDoc, bananaDoc, appleDoc] = _
  simp only [List.insertionSort, List.orderedInsert, if_neg h1, if_neg h3,
    if_neg h4]

/-! ## Claim C10: documents with missing counter fields -/

/-- Claim C10: the operations tolerate legacy documents with missing
counter fields: `mark_word_reviewed` treats a missing `review_count` as 0
(storing 1 and scheduling `next_review` one day out), and on the dedup
path `save_vocabulary_item` treats a missing `add_count` as 1 (storing
2). -/
theorem missing_counter_fields_default (db db2 : List VocabDoc)
    (user_id word_id now : Nat) (word definition : String)
    (examples : List String) (source_passage source_question : String)
    (now2 freshId : Nat) (d existing : VocabDoc)
    (hids : (db.map VocabDoc._id).Nodup)
    (hfind : db.find? (fun x => x._id == word_id && x.user_id == user_id) =
      some d)
    (hrc : d.review_count = none)
    (hids2 : (db2.map VocabDoc._id).Nodup)
    (hfind2 : db2.find? (fun x => x.user_id == user_id && x.word == word) =
      some existing)
    (hac : existing.add_count = none) :
    (mark_word_reviewed db user_id word_id now).1 =
      some { d with
        review_count := some 1
        last_review := some now
        next_review := some (now + days 1) } ∧
    (save_vocabulary_item db2 user_id word definition examples
        source_passage source_question now2 freshId).1 =
      some { existing with
        add_count := some 2
        last_add_date := now2
        definition := if definition ≠ "" then definition
          else existing.definition
        examples := if examples ≠ [] then examples else existing.examples
        source_passage := if source_passage ≠ "" then source_passage
          else existing.source_passage
        source_question := if source_question ≠ "" then source_question
          else existing.source_question } := by
  constructor
  · rw [mark_word_reviewed_found db user_id word_id now d hids hfind, hrc]
    rfl
  · rw [save_vocabulary_item_found db2 user_id word definition examples
      source_passage source_question now2 freshId existing hids2 hfind2,
      hac]
    rfl

/-- Witness for C10: `legacyDoc` has neither `review_count` nor
`add_count`; reviewing it yields count 1 and a one-day schedule, and
resubmitting its word yields `add_count = 2`. -/
theorem missing_counter_fields_default_witness :
    (mark_word_reviewed [legacyDoc] 7 4 2000).1 =
      some { legacyDoc with
        review_count := some 1
        last_review := some 2000
        next_review := some (2000 + days 1) } ∧
    (save_vocabulary_item [legacyDoc] 7 "dog" "an animal" [] "" "" 2500
        50).1 =
      some { legacyDoc with
        add_count := some 2
        last_add_date := 2500
        definition := if "an animal" ≠ "" then "an animal"
          else legacyDoc.definition
        examples := if ([] : List String) ≠ [] then []
          else legacyDoc.examples
        source_passage := if "" ≠ "" then "" else legacyDoc.source_passage
        source_question := if "" ≠ "" then ""
          else legacyDoc.source_question } :=
  missing_counter_fields_default [legacyDoc] [legacyDoc] 7 4 2000 "dog"
    "an animal" [] "" "" 2500 50 legacyDoc legacyDoc (by decide)
    (by decide) rfl (by decide) (by decide) rfl

end EnglishLearning
